import Mathlib

/-!
Verification of the subprocess core of vector-of-bool/batteries.

The definitions below are a shallow embedding of the C++ sources:
  * `src/btr/subprocess.cpp`    (argument quoting, lifecycle guards)
  * `src/btr/subprocess.hpp`    (`subprocess_exit`, `subprocess`, spawn options)
  * the POSIX backend           (spawn, join, is_running, read_output)
  * `src/btr/subprocess.win.cpp` (the Windows backend)
  * `src/btr/pipe.nix.cpp`, `src/btr/pipe.hpp` (pipe creation)
  * `src/btr/signal.hpp` / signal.cpp (throw_for_signal)

Bytes are modelled as `Nat`, C strings as `List Char` or `String`,
machine integers as `Nat`/`Int` with explicit bounds where overflow
could matter.
-/

namespace btr

/-! ## Argument quoting (`subprocess.cpp` lines 56-82, `subprocess.hpp` 494-506) -/

/-- The characters that (besides alphanumerics) keep an argument "safe",
from `argv_arg_needs_quoting`: `@%-+=:,./|_`. -/
def okay_chars : List Char := ['@', '%', '-', '+', '=', ':', ',', '.', '/', '|', '_']

/-- Embedding of `std::isalnum` in the C locale on a Unicode codepoint:
true exactly for ASCII letters and digits. -/
def isalnum (c : Char) : Bool := c.isAlphanum

/-- Embedding of `btr::argv_arg_needs_quoting`: an argument needs quoting
unless every codepoint is alphanumeric or one of `okay_chars`. -/
def argv_arg_needs_quoting (arg : List Char) : Bool :=
  ! arg.all (fun c => isalnum c || okay_chars.contains c)

/-- Embedding of the escaping loop body of `btr::quote_argv_arg`:
a backslash becomes two backslashes, a double quote becomes
backslash-quote, every other codepoint is copied. -/
def escape_argv_char (c : Char) : List Char :=
  if c = '\\' then ['\\', '\\']
  else if c = '"' then ['\\', '"']
  else [c]

/-- Embedding of `btr::quote_argv_arg`: a safe argument is returned
unchanged; an unsafe argument has each backslash and double quote
escaped.  NOTE: exactly as in the source, no surrounding double quotes
are ever added. -/
def quote_argv_arg (arg : List Char) : List Char :=
  if ! argv_arg_needs_quoting arg then arg
  else arg.flatMap escape_argv_char

/-- Embedding of `btr::quote_argv_string`: append each quoted argument
followed by a space, then pop the trailing space if anything was
appended. -/
def quote_argv_string (args : List (List Char)) : List Char :=
  let acc := args.foldl (fun acc a => acc ++ quote_argv_arg a ++ [' ']) []
  if acc.isEmpty then acc else acc.dropLast

/-- Modelled from the spec: the quoting algorithm the specification
describes ("unsafe arguments are wrapped in double quotes with embedded
backslashes and double quotes each escaped with a preceding backslash").
It is missing from the code: `quote_argv_arg` never adds the
surrounding quotes.  Used only to compare against the embedding of the
source. -/
def quote_argv_arg_spec (arg : List Char) : List Char :=
  if ! argv_arg_needs_quoting arg then arg
  else '"' :: arg.flatMap escape_argv_char ++ ['"']

/-- Modelled from the spec: the target platform's native argv-splitting
convention for a full command line (the Windows `CommandLineToArgvW`
rules, which consume the string produced by `quote_argv_string`):
outside quotes, runs of spaces separate arguments; a double quote
toggles in-quotes mode; `2n` backslashes before a quote yield `n`
backslashes, `2n+1` backslashes before a quote yield `n` backslashes
and a literal quote; backslashes not followed by a quote are literal. -/
def native_argv_split_loop :
    List Char → Bool → Nat → List Char → List (List Char) → List (List Char)
  | [], _, nbs, cur, acc =>
    let cur := List.replicate nbs '\\' ++ cur
    if cur.isEmpty then acc.reverse else (cur.reverse :: acc).reverse
  | c :: rest, inQuotes, nbs, cur, acc =>
    if c = '\\' then
      native_argv_split_loop rest inQuotes (nbs + 1) cur acc
    else if c = '"' then
      if nbs % 2 = 0 then
        native_argv_split_loop rest (!inQuotes) 0 (List.replicate (nbs / 2) '\\' ++ cur) acc
      else
        native_argv_split_loop rest inQuotes 0
          ('"' :: (List.replicate (nbs / 2) '\\' ++ cur)) acc
    else
      let cur := List.replicate nbs '\\' ++ cur
      if c = ' ' ∧ inQuotes = false then
        if cur.isEmpty then native_argv_split_loop rest inQuotes 0 [] acc
        else native_argv_split_loop rest inQuotes 0 [] (cur.reverse :: acc)
      else
        native_argv_split_loop rest inQuotes 0 (c :: cur) acc

/-- Modelled from the spec: split a full command line into its argv
elements following the native convention. -/
def native_argv_split (cmdline : List Char) : List (List Char) :=
  native_argv_split_loop cmdline false 0 [] []

/-! ## The error-relay pipe (POSIX backend, `throw_if_error_on_pipe` and the
parent branch of `subprocess::spawn`) -/

/-- Little-endian byte encoding of a C `int` value (4 bytes), as produced by
the child writing `neo::trivial_buffer(err)` into the relay pipe. -/
def encode_int_le (e : Nat) : List Nat :=
  [e % 256, e / 256 % 256, e / 256 / 256 % 256, e / 256 / 256 / 256 % 256]

/-- Little-endian decoding of a byte list into a C `int` value (missing bytes
read as zero, matching the zero-initialised `int child_errno = 0`). -/
def decode_int_le : List Nat → Nat
  | [] => 0
  | b :: rest => b % 256 + 256 * decode_int_le rest

/-- Embedding of `child_fail` in the POSIX `subprocess::spawn`: the failing
child writes its `errno` (a 4-byte `int`) followed by the diagnostic message
into the error-relay pipe, then exits. -/
def child_fail_payload (err : Nat) (message : List Nat) : List Nat :=
  encode_int_le err ++ message

/-- The classified launch failure carried by `throw_for_system_error_code`:
the OS error code and the diagnostic message bytes. -/
structure launch_failure where
  code : Nat
  message : List Nat
  deriving Repr, DecidableEq

/-- Embedding of `throw_if_error_on_pipe`: read up to one `int` object from
the relay pipe content (`read_into` returns the number of whole `int`
objects read); zero objects means launch success; otherwise read up to 1024
message bytes and raise a system error classified by the carried code. -/
def throw_if_error_on_pipe (content : List Nat) : Except launch_failure Unit :=
  let nread := (min 4 content.length) / 4
  if nread = 0 then Except.ok ()
  else
    let child_errno := decode_int_le (content.take 4)
    let message := (content.drop 4).take 1024
    Except.error ⟨child_errno, message⟩

/-- The parent-side actions taken on the error-relay pipe right after
`fork()` returns a nonzero pid. -/
inductive parent_action where
  | close_relay_write_end
  | blocking_read_relay
  deriving Repr, DecidableEq

/-- Embedding of the parent branch of the POSIX `subprocess::spawn` after
`fork()`: close the local write end of the relay pipe, perform a blocking
read on its read end, and either raise the carried failure or return the
handle (its pid) normally.  The first component is the ordered trace of
relay-pipe actions the parent performs. -/
def spawn_parent_after_fork (child_pid : Nat) (relay_content : List Nat) :
    List parent_action × Except launch_failure Nat :=
  ([parent_action.close_relay_write_end, parent_action.blocking_read_relay],
   (throw_if_error_on_pipe relay_content).map (fun _ => child_pid))

/-! ## Exit status (`subprocess_exit`) and `join` classification -/

/-- Embedding of `btr::subprocess_exit`. -/
structure subprocess_exit where
  exit_code : Int
  signal_number : Int
  deriving Repr, DecidableEq

/-- Embedding of `subprocess_exit::successful()`:
`signal_number == 0 and exit_code == 0`. -/
def subprocess_exit.successful (e : subprocess_exit) : Bool :=
  e.signal_number = 0 && e.exit_code = 0

/-- The `si_code` values `waitid` can report for an exited child, as
distinguished by `subprocess::_do_join`. -/
inductive si_code_t where
  | CLD_KILLED
  | CLD_DUMPED
  | CLD_EXITED
  | CLD_other
  deriving Repr, DecidableEq

/-- The fields of `::siginfo_t` that `_do_join` consumes. -/
structure siginfo_t where
  si_code : si_code_t
  si_status : Int
  deriving Repr, DecidableEq

/-- Outcome of the `::waitid(P_PID, pid, &info, WEXITED)` call in
`_do_join`: either the call was interrupted by a signal delivered to the
calling process (`rc == -1 && errno == EINTR`), or it completed with a
`siginfo_t`. -/
inductive wait_outcome where
  | interrupted
  | completed (info : siginfo_t)
  deriving Repr, DecidableEq

/-- The exceptions `_do_join` can raise: a `signal_exception` (from
`btr::throw_for_signal`) carrying a signal number, or the
`neo_assert(invariant, ...)` failure on an unexpected child exit state. -/
inductive join_error where
  | signal_exception (kind : String) (signal_number : Int)
  | invariant_failure
  deriving Repr, DecidableEq

/-- POSIX signal numbers used by `btr::throw_for_signal`. -/
def SIGHUP : Int := 1
/-- Interactive interrupt. -/
def SIGINT : Int := 2
/-- Quit request. -/
def SIGQUIT : Int := 3
/-- Termination request. -/
def SIGTERM : Int := 15

/-- Embedding of `btr::throw_for_signal(int)` (signal.cpp): pick the
dedicated exception class for SIGINT/SIGTERM/SIGQUIT/SIGHUP (SIGBREAK does
not exist on POSIX) and the generic `signal_exception` otherwise; every
branch carries the delivered signal number. -/
def throw_for_signal (signum : Int) : join_error :=
  if signum = SIGINT then join_error.signal_exception "sigint_exception" SIGINT
  else if signum = SIGTERM then join_error.signal_exception "sigterm_exception" SIGTERM
  else if signum = SIGQUIT then join_error.signal_exception "sigquit_exception" SIGQUIT
  else if signum = SIGHUP then join_error.signal_exception "sighup_exception" SIGHUP
  else join_error.signal_exception "signal_exception" signum

/-- The signal number carried by a raised `join_error`. -/
def join_error.carried_signal : join_error → Int
  | join_error.signal_exception _ n => n
  | join_error.invariant_failure => 0

/-- Embedding of the classification in the POSIX `subprocess::_do_join`:
`CLD_KILLED`/`CLD_DUMPED` populate `signal_number` (leaving `exit_code`
zero), `CLD_EXITED` populates `exit_code` (leaving `signal_number` zero),
anything else trips the invariant assertion. -/
def classify_siginfo (info : siginfo_t) : Except join_error subprocess_exit :=
  match info.si_code with
  | si_code_t.CLD_KILLED => Except.ok ⟨0, info.si_status⟩
  | si_code_t.CLD_DUMPED => Except.ok ⟨0, info.si_status⟩
  | si_code_t.CLD_EXITED => Except.ok ⟨info.si_status, 0⟩
  | si_code_t.CLD_other => Except.error join_error.invariant_failure

/-- Embedding of the POSIX `subprocess::_do_join`: on an interrupted wait,
raise `btr::throw_for_signal()` for the most recently received signal
`recv_signal`; otherwise classify the reported `siginfo_t`. -/
def posix_do_join (recv_signal : Int) (w : wait_outcome) :
    Except join_error subprocess_exit :=
  match w with
  | wait_outcome.interrupted => Except.error (throw_for_signal recv_signal)
  | wait_outcome.completed info => classify_siginfo info

/-- Embedding of the Windows `subprocess::_do_join`: fetch the process exit
code and store it as `exit_code`; `signal_number` is always zero. -/
def win_do_join (rc : Int) : subprocess_exit := ⟨rc, 0⟩

/-! ## Spawn options (`subprocess_spawn_options`) and the stdio routing
variants -/

/-- The `stdout_` routing variant of `subprocess_spawn_options`. -/
inductive out_route where
  | inherit
  | piped
  | null
  | to_file (p : String)
  deriving Repr, DecidableEq

/-- The `stderr_` routing variant of `subprocess_spawn_options` (also
allows redirecting into stdout). -/
inductive err_route where
  | inherit
  | piped
  | null
  | to_file (p : String)
  | into_stdout
  deriving Repr, DecidableEq

/-- The `stdin_` routing variant of `subprocess_spawn_options`. -/
inductive in_route where
  | null
  | inherit
  | piped
  | from_file (p : String)
  deriving Repr, DecidableEq

/-- Embedding of `btr::subprocess_spawn_options`. -/
structure subprocess_spawn_options where
  command : List String
  program : Option String
  working_directory : Option String
  stdin_ : in_route
  stdout_ : out_route
  stderr_ : err_route
  env_path_lookup : Bool
  set_group_leader : Bool
  deriving Repr, DecidableEq

/-! ## Pipe/file setup performed by `spawn` before creating the child -/

/-- What setting up one stdio stream produced, as observable from the
parent: nothing (inherit), a fresh pipe whose parent-retained end either
has or has not had child inheritance disabled (`FD_CLOEXEC` on POSIX,
`SetHandleInformation(..., HANDLE_FLAG_INHERIT, 0)` on Windows), or a
freshly opened file handed to the child. -/
inductive stream_setup where
  | nothing
  | piped (retained_end_inheritance_disabled : Bool)
  | opened_file (p : String)
  deriving Repr, DecidableEq

/-- Embedding of the `opts.stdout_` visit in the POSIX `spawn`:
`stdio_pipe_t` calls `create_pipe()` (plain `::pipe()`, both ends
inheritable) and retains the reader with no `set_cloexec` call;
`stdio_null_t` opens `/dev/null` for writing; a path opens that file. -/
def posix_stdout_setup : out_route → stream_setup
  | out_route.inherit => stream_setup.nothing
  | out_route.piped => stream_setup.piped false
  | out_route.null => stream_setup.opened_file "/dev/null"
  | out_route.to_file p => stream_setup.opened_file p

/-- Embedding of the `opts.stderr_` visit in the POSIX `spawn`; the second
component is the `stderr_to_stdout` flag. -/
def posix_stderr_setup : err_route → stream_setup × Bool
  | err_route.inherit => (stream_setup.nothing, false)
  | err_route.piped => (stream_setup.piped false, false)
  | err_route.null => (stream_setup.opened_file "/dev/null", false)
  | err_route.to_file p => (stream_setup.opened_file p, false)
  | err_route.into_stdout => (stream_setup.nothing, true)

/-- Embedding of the `opts.stdin_` visit in the POSIX `spawn`:
`stdio_pipe_t` retains the pipe writer and calls
`set_cloexec(imp->stdin_pipe.get())` on it. -/
def posix_stdin_setup : in_route → stream_setup
  | in_route.inherit => stream_setup.nothing
  | in_route.piped => stream_setup.piped true
  | in_route.null => stream_setup.opened_file "/dev/null"
  | in_route.from_file p => stream_setup.opened_file p

/-- Embedding of the `opts.stdout_` visit in the Windows `spawn` together
with the `SetHandleInformation(imp->stdout_pipe.get(), HANDLE_FLAG_INHERIT,
0)` call that follows it (before `CreateProcessW`). -/
def win_stdout_setup : out_route → stream_setup
  | out_route.inherit => stream_setup.nothing
  | out_route.piped => stream_setup.piped true
  | out_route.null => stream_setup.opened_file "NUL"
  | out_route.to_file p => stream_setup.opened_file p

/-- Embedding of the `opts.stderr_` visit in the Windows `spawn` together
with the `SetHandleInformation` call on the retained reader. -/
def win_stderr_setup : err_route → stream_setup × Bool
  | err_route.inherit => (stream_setup.nothing, false)
  | err_route.piped => (stream_setup.piped true, false)
  | err_route.null => (stream_setup.opened_file "NUL", false)
  | err_route.to_file p => (stream_setup.opened_file p, false)
  | err_route.into_stdout => (stream_setup.nothing, true)

/-- Embedding of the stdin handling of the Windows `spawn`: the Windows
backend contains no `std::visit` over `opts.stdin_` at all, so no stdin
pipe or file is ever set up there. -/
def win_stdin_setup : in_route → stream_setup
  | _ => stream_setup.nothing

/-! ## The exec step of the POSIX `spawn` (claim C3) -/

/-- The `execvp`/`execv` call issued by the POSIX child branch:
`path_lookup` records which of the two was chosen, `file` is the first
argument passed, `argv` the argument vector. -/
structure exec_call where
  path_lookup : Bool
  file : String
  argv : List String
  deriving Repr, DecidableEq

/-- Embedding of the `program` string computed at the top of the POSIX
`spawn` (used only to format `execvp_error_message`): the explicit
`opts.program` when given, otherwise the first command token; `none`
models the `neo_assert(expects, ...)` failure when both are absent. -/
def posix_resolved_program (opts : subprocess_spawn_options) : Option String :=
  match opts.program with
  | some p => some p
  | none => opts.command.head?

/-- Embedding of the exec step of the POSIX `spawn` child branch: the
`strings` vector holds pointers to `opts.command` followed by a null, the
function is `execvp` iff `opts.env_path_lookup`, and the executed file is
`strings[0]`, i.e. the first command token.  `none` models passing the
null pointer (empty command). -/
def posix_exec_call (opts : subprocess_spawn_options) : Option exec_call :=
  match opts.command with
  | [] => none
  | c0 :: _ => some ⟨opts.env_path_lookup, c0, opts.command⟩

/-! ## The full per-platform spawn behaviour, as a value (claim C10) -/

/-- Everything the POSIX `spawn` does to the operating system, as a value:
the stdio stream setup, the `stderr_to_stdout` duplication flag, the
working directory passed to `chdir`, and the exec call.  The POSIX
backend contains no `setpgid`/process-group call and never reads
`opts.set_group_leader`, so no component of this plan depends on it. -/
structure posix_spawn_plan_t where
  stdout_setup : stream_setup
  stderr_setup : stream_setup
  stderr_to_stdout : Bool
  stdin_setup : stream_setup
  chdir_to : Option String
  exec : Option exec_call
  deriving Repr, DecidableEq

/-- Embedding of the OS-visible behaviour of the POSIX `subprocess::spawn`. -/
def posix_spawn_plan (opts : subprocess_spawn_options) : posix_spawn_plan_t :=
  { stdout_setup := posix_stdout_setup opts.stdout_
    stderr_setup := (posix_stderr_setup opts.stderr_).1
    stderr_to_stdout := (posix_stderr_setup opts.stderr_).2
    stdin_setup := posix_stdin_setup opts.stdin_
    chdir_to := opts.working_directory
    exec := posix_exec_call opts }

/-- The `dwCreationFlags` value `CREATE_NEW_PROCESS_GROUP` passed to
`CreateProcessW`. -/
def CREATE_NEW_PROCESS_GROUP : Nat := 512

/-- Embedding of the creation flags the Windows `spawn` passes to
`CreateProcessW`: the constant `CREATE_NEW_PROCESS_GROUP`, regardless of
the options. -/
def win_creation_flags (_ : subprocess_spawn_options) : Nat :=
  CREATE_NEW_PROCESS_GROUP

/-- Everything the Windows `spawn` does to the operating system, as a
value: the pre-lookup program selection (explicit program, else first
command token, PATH/PATHEXT-searched iff `env_path_lookup`), the joined
command line, the stream setup, the creation flags and the working
directory. -/
structure win_spawn_plan_t where
  program_override : Option String
  program_token : Option String
  use_path_lookup : Bool
  cmdline : List Char
  stdout_setup : stream_setup
  stderr_setup : stream_setup
  stderr_to_stdout : Bool
  stdin_setup : stream_setup
  creation_flags : Nat
  workdir : Option String
  deriving Repr, DecidableEq

/-- Embedding of the OS-visible behaviour of the Windows
`subprocess::spawn`. -/
def win_spawn_plan (opts : subprocess_spawn_options) : win_spawn_plan_t :=
  { program_override := opts.program
    program_token := opts.command.head?
    use_path_lookup := opts.env_path_lookup && opts.program.isNone
    cmdline := quote_argv_string (opts.command.map String.data)
    stdout_setup := win_stdout_setup opts.stdout_
    stderr_setup := (win_stderr_setup opts.stderr_).1
    stderr_to_stdout := (win_stderr_setup opts.stderr_).2
    stdin_setup := win_stdin_setup opts.stdin_
    creation_flags := win_creation_flags opts
    workdir := opts.working_directory }

/-! ## Handle lifecycle: destruction, join, detach (claim C7) -/

/-- The fields of a `btr::subprocess` object relevant to its lifecycle:
whether `_impl` is non-null and the `_exit_result` optional. -/
structure handle_state where
  impl_present : Bool
  exit_result_ : Option subprocess_exit
  deriving Repr, DecidableEq

/-- Embedding of `subprocess::is_joined()`:
`_exit_result.has_value()`. -/
def handle_state.is_joined (s : handle_state) : Bool :=
  s.exit_result_.isSome

/-- Outcome of destroying a `btr::subprocess`. -/
inductive destroy_outcome where
  | normal
  | terminated
  deriving Repr, DecidableEq

/-- Embedding of `subprocess::_terminate_if_unjoined`: the always-on
assertion `neo_assert_always(expects, not _impl or is_joined(), ...)`
terminates the program when it fails. -/
def terminate_if_unjoined (s : handle_state) : destroy_outcome :=
  if !s.impl_present || s.is_joined then destroy_outcome.normal
  else destroy_outcome.terminated

/-- Embedding of `subprocess::_destroy` (run by the destructor): when
`_impl` is present, first `_terminate_if_unjoined`, then `_do_close`. -/
def handle_destroy (s : handle_state) : destroy_outcome :=
  if s.impl_present then terminate_if_unjoined s
  else destroy_outcome.normal

/-- Effect of `subprocess::detach()` on the handle state: `_do_close`
deletes `_impl` and nulls it. -/
def handle_detach (s : handle_state) : handle_state :=
  { s with impl_present := false }

/-- Effect of a completed `subprocess::join()` on the handle state:
`_do_join` stores an exit result. -/
def handle_after_join (s : handle_state) (e : subprocess_exit) : handle_state :=
  { s with exit_result_ := some e }

/-- A moved-from `btr::subprocess`: the move constructor exchanges
`_impl` with `nullptr` and `_exit_result` with `nullopt`. -/
def moved_from_handle : handle_state := ⟨false, none⟩

/-! ## `is_running` and the `waitid` frame effect (claim C9) -/

/-- The kernel-side state of the child process as observable through the
`wait` family: still running (carrying its eventual exit information),
exited but not yet reaped (a zombie), or already reaped. -/
inductive child_state where
  | running (future : siginfo_t)
  | zombie (info : siginfo_t)
  | reaped
  deriving Repr, DecidableEq

/-- The exit information the child will deliver or has delivered;
`none` once the child has been reaped. -/
def child_state.disposition : child_state → Option siginfo_t
  | child_state.running f => some f
  | child_state.zombie i => some i
  | child_state.reaped => none

/-- Embedding of `::waitid(P_PID, pid, &info, WNOHANG | WEXITED |
WNOWAIT)` as used by the POSIX `subprocess::_do_is_running`: `WNOHANG`
returns immediately (with `si_pid`/`si_signo` still zero) for a running
child instead of blocking, and `WNOWAIT` leaves a waitable child
waitable, so the kernel state is returned unchanged in every case; on a
zombie the call reports the exit information without consuming it.  The
`Bool` is the value `_do_is_running` returns; an already-reaped child
makes `waitid` fail (`throw_current_error`), modelled as `Except.error`. -/
def posix_do_is_running (c : child_state) : Except Unit (Bool × child_state) :=
  match c with
  | child_state.running f => Except.ok (true, child_state.running f)
  | child_state.zombie i => Except.ok (false, child_state.zombie i)
  | child_state.reaped => Except.error ()

/-- Embedding of the POSIX `subprocess::_do_join` acting on the kernel
child state: `::waitid(P_PID, pid, &info, WEXITED)` (no `WNOHANG`, no
`WNOWAIT`) blocks until the child exits, reaps it, and the reported
`siginfo_t` is classified by `classify_siginfo`; waiting on an already
reaped child fails. -/
def posix_do_join_os (c : child_state) :
    Except join_error (subprocess_exit × child_state) :=
  match c with
  | child_state.running f =>
      (classify_siginfo f).map (fun e => (e, child_state.reaped))
  | child_state.zombie i =>
      (classify_siginfo i).map (fun e => (e, child_state.reaped))
  | child_state.reaped => Except.error join_error.invariant_failure

/-! ## Multiplexed output reading (`_do_read_output`, `read_output`;
claim C5) -/

/-- A parent-retained stdout/stderr pipe endpoint as `_do_read_output`
sees it: closed, or open with the bytes currently available to read and
a flag recording whether the writing side has hung up (so `poll` would
report `POLLHUP`). -/
inductive pipe_end where
  | closed
  | opened (avail : List Nat) (hup : Bool)
  deriving Repr, DecidableEq

/-- Embedding of `pipe_reader::is_open()` for the modelled endpoint. -/
def pipe_end.is_open : pipe_end → Bool
  | pipe_end.closed => false
  | pipe_end.opened _ _ => true

/-- Whether `poll` reports this endpoint ready: `POLLIN` when data is
available, `POLLHUP` when the writer hung up. -/
def pipe_end.ready : pipe_end → Bool
  | pipe_end.closed => false
  | pipe_end.opened avail hup => !avail.isEmpty || hup

/-- The bytes this endpoint will still deliver before EOF. -/
def pipe_end.remaining : pipe_end → List Nat
  | pipe_end.closed => []
  | pipe_end.opened avail _ => avail

/-- Embedding of the loop body of `_do_read_output` for one polled
endpoint: on `POLLHUP` without `POLLIN`, close the pipe without reading;
otherwise grow the accumulator by 1024 bytes, issue one `read` of at
most 1024 bytes, shrink to what was read, and close the pipe if the
read returned zero bytes (EOF). -/
def service_pipe (p : pipe_end) (target : List Nat) : pipe_end × List Nat :=
  match p with
  | pipe_end.closed => (p, target)
  | pipe_end.opened avail hup =>
    if hup ∧ avail.isEmpty then (pipe_end.closed, target)
    else
      let chunk := avail.take 1024
      if chunk.isEmpty then (pipe_end.closed, target)
      else (pipe_end.opened (avail.drop 1024) hup, target ++ chunk)

/-- Result of one `_do_read_output` call.  `timed_out_or_done` and
`progressed` both return the updated endpoint/accumulator state;
`blocked` models `::poll` with a negative timeout suspending forever
because no polled endpoint is ready; `panicked` models the
`neo_assert(invariant, pfd.revents & POLLIN or pfd.revents & POLLHUP,...)`
failure when `poll` wakes up with some polled endpoint not ready. -/
inductive read_step_result where
  | ok (stdout_p stderr_p : pipe_end) (out err : List Nat)
  | blocked
  | panicked
  deriving Repr, DecidableEq

/-- Embedding of the POSIX `subprocess::_do_read_output`: build the
`pollfd` set from whichever of the stdout/stderr endpoints are still
open (returning at once when both are closed); `::poll` bounded by
`timeout` (negative blocks until an endpoint is ready, zero returns
immediately, and a positive timeout expires unchanged when nothing is
ready); when `poll` reports readiness, service each polled endpoint in
order with `service_pipe`, appending onto the matching accumulator. -/
def do_read_output (stdout_p stderr_p : pipe_end) (out err : List Nat)
    (timeout : Int) : read_step_result :=
  if !stdout_p.is_open && !stderr_p.is_open then
    read_step_result.ok stdout_p stderr_p out err
  else if !stdout_p.ready && !stderr_p.ready then
    if timeout < 0 then read_step_result.blocked
    else read_step_result.ok stdout_p stderr_p out err
  else if (stdout_p.is_open && !stdout_p.ready)
      || (stderr_p.is_open && !stderr_p.ready) then
    read_step_result.panicked
  else
    let (so, out') := service_pipe stdout_p out
    let (se, err') := service_pipe stderr_p err
    read_step_result.ok so se out' err'

/-- Embedding of `subprocess::read_output()` (subprocess.cpp lines
37-43): while either endpoint is open, call the bounded form with the
infinite timeout `-1ms`, accumulating into the result.  The `fuel`
argument makes the loop a total function; `none` means the fuel ran out
or an inner call blocked or panicked. -/
def read_output_fuel : Nat → pipe_end → pipe_end → List Nat → List Nat →
    Option (List Nat × List Nat)
  | 0, _, _, _, _ => none
  | Nat.succ fuel, stdout_p, stderr_p, out, err =>
    if !stdout_p.is_open && !stderr_p.is_open then some (out, err)
    else
      match do_read_output stdout_p stderr_p out err (-1) with
      | read_step_result.ok so se out' err' => read_output_fuel fuel so se out' err'
      | read_step_result.blocked => none
      | read_step_result.panicked => none

/-- Whether the endpoint can no longer gain data: closed, or open with the
writer hung up.  This is the situation of both pipe endpoints once the
child has exited (e.g. after `join()`), which is when `read_output()` can
drain them to EOF. -/
def pipe_end.hup_set : pipe_end → Bool
  | pipe_end.closed => true
  | pipe_end.opened _ hup => hup

/-- Measure of one pipe endpoint: undelivered bytes plus one while it is
still open. -/
def pm (p : pipe_end) : Nat :=
  p.remaining.length + (if p.is_open then 1 else 0)

/-- Measure of a pair of pipe endpoints, bounding the number of
`read_output` loop iterations still needed. -/
def pipe_measure (so se : pipe_end) : Nat := pm so + pm se

/-! ## Helper lemmas -/

theorem decode_encode_int_le (e : Nat) (h : e < 4294967296) :
    decode_int_le (encode_int_le e) = e := by
  simp only [encode_int_le, decode_int_le]
  omega

theorem take_cons_not_empty (x : Nat) (xs : List Nat) :
    (List.take 1024 (x :: xs)).isEmpty = false := by
  rw [List.isEmpty_eq_false_iff_exists_mem]
  exact ⟨x, List.mem_take_iff_getElem.mpr ⟨0, by simp, rfl⟩⟩

theorem service_pipe_hup (p : pipe_end) (t : List Nat) (hp : p.hup_set = true) :
    (service_pipe p t).1.hup_set = true := by
  cases p with
  | closed => simp [service_pipe, pipe_end.hup_set]
  | opened avail hup =>
    simp only [pipe_end.hup_set] at hp
    subst hp
    cases avail with
    | nil => simp [service_pipe, pipe_end.hup_set]
    | cons x xs =>
      simp [service_pipe, pipe_end.hup_set, take_cons_not_empty]

theorem service_pipe_acc (p : pipe_end) (t : List Nat) (hp : p.hup_set = true) :
    (service_pipe p t).2 ++ (service_pipe p t).1.remaining = t ++ p.remaining := by
  cases p with
  | closed => simp [service_pipe, pipe_end.remaining]
  | opened avail hup =>
    simp only [pipe_end.hup_set] at hp
    subst hp
    simp only [service_pipe, pipe_end.remaining]
    by_cases ha : avail.isEmpty
    · have : avail = [] := List.isEmpty_iff.mp ha
      subst this
      simp [pipe_end.remaining]
    · cases avail with
      | nil => simp [List.isEmpty] at ha
      | cons x xs =>
        simp only [List.isEmpty, and_false, if_false]
        simp [pipe_end.remaining, List.append_assoc]

theorem service_pipe_pm (p : pipe_end) (t : List Nat) (hp : p.hup_set = true)
    (hopen : p.is_open = true) :
    pm (service_pipe p t).1 < pm p := by
  cases p with
  | closed => simp [pipe_end.is_open] at hopen
  | opened avail hup =>
    simp only [pipe_end.hup_set] at hp
    subst hp
    simp only [service_pipe]
    by_cases ha : avail.isEmpty
    · have : avail = [] := List.isEmpty_iff.mp ha
      subst this
      simp [pm, pipe_end.remaining, pipe_end.is_open]
    · cases avail with
      | nil => simp [List.isEmpty] at ha
      | cons x xs =>
        simp only [List.isEmpty, and_false, if_false]
        simp only [pm, pipe_end.remaining, pipe_end.is_open, if_true]
        have hd : (List.drop 1024 (x :: xs)).length = (x :: xs).length - 1024 := by
          simp [List.length_drop]
        simp [hd, List.length_cons]
        omega

theorem service_pipe_closed_pm (p : pipe_end) (t : List Nat)
    (hclosed : p.is_open = false) :
    service_pipe p t = (p, t) := by
  cases p with
  | closed => simp [service_pipe]
  | opened avail hup => simp [pipe_end.is_open] at hclosed

theorem pipe_ready_of_hup_open (p : pipe_end) (hp : p.hup_set = true)
    (hopen : p.is_open = true) : p.ready = true := by
  cases p with
  | closed => simp [pipe_end.is_open] at hopen
  | opened avail hup =>
    simp only [pipe_end.hup_set] at hp
    subst hp
    simp [pipe_end.ready]

theorem do_read_output_step (so se : pipe_end) (out err : List Nat)
    (hso : so.hup_set = true) (hse : se.hup_set = true)
    (hopen : so.is_open = true ∨ se.is_open = true) :
    do_read_output so se out err (-1) =
      read_step_result.ok (service_pipe so out).1 (service_pipe se err).1
        (service_pipe so out).2 (service_pipe se err).2 := by
  have hready : ∀ p : pipe_end, p.hup_set = true →
      (p.is_open = true → p.ready = true) := fun p hp ho =>
    pipe_ready_of_hup_open p hp ho
  simp only [do_read_output]
  rcases hopen with h | h
  · have hr := hready so hso h
    simp [h, hr]
    by_cases hseo : se.is_open = true
    · have := hready se hse hseo
      simp [hseo, this]
    · have hse' : se.is_open = false := by
        cases hx : se.is_open
        · rfl
        · exact absurd hx hseo
      simp [hse']
  · have hr := hready se hse h
    simp [h, hr]
    by_cases hsoo : so.is_open = true
    · have := hready so hso hsoo
      simp [hsoo, this]
    · have hso' : so.is_open = false := by
        cases hx : so.is_open
        · rfl
        · exact absurd hx hsoo
      simp [hso']

theorem read_output_fuel_complete (fuel : Nat) :
    ∀ (so se : pipe_end) (out err : List Nat),
      pipe_measure so se < fuel → so.hup_set = true → se.hup_set = true →
      read_output_fuel fuel so se out err =
        some (out ++ so.remaining, err ++ se.remaining) := by
  induction fuel with
  | zero =>
    intro so se out err hm _ _
    exact absurd hm (Nat.not_lt_zero _)
  | succ n ih =>
    intro so se out err hm hso hse
    by_cases hboth : so.is_open = false ∧ se.is_open = false
    · have h1 : so.remaining = [] := by
        cases so with
        | closed => rfl
        | opened a h => simp [pipe_end.is_open] at hboth
      have h2 : se.remaining = [] := by
        cases se with
        | closed => rfl
        | opened a h => simp [pipe_end.is_open] at hboth
      simp [read_output_fuel, hboth.1, hboth.2, h1, h2]
    · have hopen : so.is_open = true ∨ se.is_open = true := by
        by_cases h1 : so.is_open = true
        · exact Or.inl h1
        · right
          cases hx : se.is_open
          · exact absurd ⟨by
              cases hy : so.is_open
              · rfl
              · exact absurd hy h1, hx⟩ hboth
          · rfl
      have hstep := do_read_output_step so se out err hso hse hopen
      have hnotboth : ¬(so.is_open = false ∧ se.is_open = false) := hboth
      have hvisible : (!so.is_open && !se.is_open) = false := by
        rcases hopen with h | h <;> simp [h]
      simp only [read_output_fuel, hvisible, Bool.false_eq_true, if_false, hstep]
      have hm' : pipe_measure (service_pipe so out).1 (service_pipe se err).1 < n := by
        have hsum : pipe_measure (service_pipe so out).1 (service_pipe se err).1 <
            pipe_measure so se := by
          rcases hopen with h | h
          · have h1 := service_pipe_pm so out hso h
            have h2 : pm (service_pipe se err).1 ≤ pm se := by
              by_cases hseo : se.is_open = true
              · exact Nat.le_of_lt (service_pipe_pm se err hse hseo)
              · have hse' : se.is_open = false := by
                  cases hx : se.is_open
                  · rfl
                  · exact absurd hx hseo
                rw [service_pipe_closed_pm se err hse']
            simp only [pipe_measure]
            omega
          · have h1 := service_pipe_pm se err hse h
            have h2 : pm (service_pipe so out).1 ≤ pm so := by
              by_cases hsoo : so.is_open = true
              · exact Nat.le_of_lt (service_pipe_pm so out hso hsoo)
              · have hso' : so.is_open = false := by
                  cases hx : so.is_open
                  · rfl
                  · exact absurd hx hsoo
                rw [service_pipe_closed_pm so out hso']
            simp only [pipe_measure]
            omega
        omega
      have hrec := ih (service_pipe so out).1 (service_pipe se err).1
        (service_pipe so out).2 (service_pipe se err).2 hm'
        (service_pipe_hup so out hso) (service_pipe_hup se err hse)
      rw [hrec]
      rw [service_pipe_acc so out hso, service_pipe_acc se err hse]

theorem classify_siginfo_one_sided (info : siginfo_t) (e : subprocess_exit)
    (h : classify_siginfo info = Except.ok e) :
    e.exit_code = 0 ∨ e.signal_number = 0 := by
  cases hc : info.si_code <;> simp [classify_siginfo, hc] at h <;>
    rw [← h] <;> simp

theorem successful_iff_both_zero (e : subprocess_exit) :
    e.successful = true ↔ (e.exit_code = 0 ∧ e.signal_number = 0) := by
  simp [subprocess_exit.successful, and_comm]

/-! ## Claim theorems -/

/-- C1: the claim states that an unsafe argument is wrapped in double
quotes (with embedded backslashes and quotes escaped) and that the
space-joined command line matches the native argv-splitting convention.
The code never adds the surrounding quotes: for the argument `a b`,
`argv_arg_needs_quoting` is true, yet `quote_argv_arg` returns the
argument verbatim, so the produced command line `a b` is re-split by the
native convention into two arguments `a` and `b` instead of reproducing
the original single argument — while the spec's wrapped form would
round-trip correctly. -/
theorem C1_quote_argv_arg_not_wrapped :
    argv_arg_needs_quoting "a b".data = true ∧
    quote_argv_arg "a b".data = "a b".data ∧
    quote_argv_arg "a b".data ≠ quote_argv_arg_spec "a b".data ∧
    quote_argv_string ["a b".data] = "a b".data ∧
    native_argv_split (quote_argv_string ["a b".data]) = ["a".data, "b".data] ∧
    native_argv_split (quote_argv_arg_spec "a b".data) = ["a b".data] := by
  decide

/-- C2: after fork the parent closes its copy of the error-relay pipe's
write end and then performs a blocking read on the read end; a
zero-length read makes `spawn()` return the handle normally, and a
non-empty payload (the errno plus diagnostic message that the failed
child wrote) makes `spawn()` raise a synchronous error classified by the
carried OS error code. -/
theorem C2_error_relay_pipe (pid err : Nat) (msg : List Nat)
    (herr : err < 4294967296) (hmsg : msg.length ≤ 1024) :
    (∀ content : List Nat, (spawn_parent_after_fork pid content).1 =
      [parent_action.close_relay_write_end, parent_action.blocking_read_relay]) ∧
    (spawn_parent_after_fork pid []).2 = Except.ok pid ∧
    (spawn_parent_after_fork pid (child_fail_payload err msg)).2 =
      Except.error ⟨err, msg⟩ := by
  refine ⟨fun _ => rfl, rfl, ?_⟩
  have hlen : (encode_int_le err).length = 4 := by simp [encode_int_le]
  simp only [spawn_parent_after_fork, child_fail_payload, throw_if_error_on_pipe,
    Except.map]
  have hlen2 : (encode_int_le err ++ msg).length = 4 + msg.length := by
    simp [hlen]
  have hmin : min 4 (encode_int_le err ++ msg).length / 4 = 1 := by
    rw [hlen2]; omega
  have htake : (encode_int_le err ++ msg).take 4 = encode_int_le err :=
    List.take_left' hlen
  have hdrop : (encode_int_le err ++ msg).drop 4 = msg :=
    List.drop_left' hlen
  simp only [hmin, htake, hdrop, decode_encode_int_le err herr,
    List.take_of_length_le hmsg]
  rfl

/-- C2 witness: the theorem applied at pid 7, errno 2 (ENOENT) and a
one-byte diagnostic message. -/
theorem C2_error_relay_pipe_witness :
    (spawn_parent_after_fork 7 []).2 = Except.ok 7 ∧
    (spawn_parent_after_fork 7 (child_fail_payload 2 [33])).2 =
      Except.error ⟨2, [33]⟩ :=
  ⟨(C2_error_relay_pipe 7 2 [33] (by decide) (by decide)).2.1,
   (C2_error_relay_pipe 7 2 [33] (by decide) (by decide)).2.2⟩

/-- C3: the claim states that the POSIX `spawn()` executes the explicit
program path when `opts.program` is provided.  In the code the computed
`program` string is used only for the `execvp` error message: the exec
call receives `strings[0]`, the first command token.  At the options
`command = [/bin/cat]`, `program = /bin/echo`, the resolved program is
`/bin/echo` but the file actually passed to `execvp` is `/bin/cat`. -/
theorem C3_posix_exec_ignores_program :
    posix_resolved_program ⟨["/bin/cat"], some "/bin/echo", none, in_route.null,
        out_route.inherit, err_route.inherit, true, false⟩ = some "/bin/echo" ∧
    posix_exec_call ⟨["/bin/cat"], some "/bin/echo", none, in_route.null,
        out_route.inherit, err_route.inherit, true, false⟩ =
      some ⟨true, "/bin/cat", ["/bin/cat"]⟩ ∧
    ("/bin/cat" : String) ≠ "/bin/echo" := by
  decide

/-- C4: every exit value produced by `join()` has at most one of
`exit_code`/`signal_number` non-zero (the POSIX classification populates
exactly one, the Windows one never sets `signal_number`), and
`successful()` is true iff both are zero. -/
theorem C4_exit_status_invariant (recv : Int) (w : wait_outcome)
    (e : subprocess_exit) (rc : Int)
    (h : posix_do_join recv w = Except.ok e) :
    (e.exit_code = 0 ∨ e.signal_number = 0) ∧
    (e.successful = true ↔ (e.exit_code = 0 ∧ e.signal_number = 0)) ∧
    (win_do_join rc).signal_number = 0 ∧
    ((win_do_join rc).successful = true ↔
      ((win_do_join rc).exit_code = 0 ∧ (win_do_join rc).signal_number = 0)) := by
  refine ⟨?_, successful_iff_both_zero e, rfl, successful_iff_both_zero _⟩
  cases w with
  | interrupted => simp [posix_do_join] at h
  | completed info => exact classify_siginfo_one_sided info e h

/-- C4 witness: the theorem applied to a normally exited child with
status 0 and a Windows exit code 5. -/
theorem C4_exit_status_invariant_witness :
    (((⟨0, 0⟩ : subprocess_exit).exit_code = 0 ∨
        (⟨0, 0⟩ : subprocess_exit).signal_number = 0) ∧
      ((⟨0, 0⟩ : subprocess_exit).successful = true ↔
        ((⟨0, 0⟩ : subprocess_exit).exit_code = 0 ∧
          (⟨0, 0⟩ : subprocess_exit).signal_number = 0)) ∧
      (win_do_join 5).signal_number = 0 ∧
      ((win_do_join 5).successful = true ↔
        ((win_do_join 5).exit_code = 0 ∧ (win_do_join 5).signal_number = 0))) :=
  C4_exit_status_invariant 0
    (wait_outcome.completed ⟨si_code_t.CLD_EXITED, 0⟩) ⟨0, 0⟩ 5 rfl

/-- C5: `_do_read_output` returns immediately and unchanged on a zero
timeout with nothing ready, blocks on a negative timeout with nothing
ready, performs one bounded at-most-1024-byte read per ready endpoint
appended to the matching accumulator, retires an endpoint at EOF, never
touches a closed endpoint, and `read_output()` (iterating the bounded
form with infinite timeout) drains both endpoints to EOF, returning the
full accumulated output. -/
theorem C5_read_output_multiplexing :
    (∀ (so se : pipe_end) (out err : List Nat),
        so.ready = false → se.ready = false →
        do_read_output so se out err 0 = read_step_result.ok so se out err) ∧
    (∀ out err : List Nat,
        do_read_output (pipe_end.opened [] false) pipe_end.closed out err (-1) =
          read_step_result.blocked) ∧
    (∀ (avail : List Nat) (hup : Bool) (target : List Nat),
        avail.isEmpty = false →
        service_pipe (pipe_end.opened avail hup) target =
          (pipe_end.opened (avail.drop 1024) hup, target ++ avail.take 1024) ∧
          (avail.take 1024).length ≤ 1024) ∧
    (∀ target : List Nat,
        service_pipe (pipe_end.opened [] true) target = (pipe_end.closed, target)) ∧
    (∀ (se : pipe_end) (out err : List Nat) (t : Int),
        se.ready = true →
        do_read_output pipe_end.closed se out err t =
          read_step_result.ok pipe_end.closed (service_pipe se err).1 out
            (service_pipe se err).2) ∧
    (∀ (out err : List Nat) (t : Int),
        do_read_output pipe_end.closed pipe_end.closed out err t =
          read_step_result.ok pipe_end.closed pipe_end.closed out err) ∧
    (∀ (so se : pipe_end) (out err : List Nat),
        so.hup_set = true → se.hup_set = true →
        read_output_fuel (pipe_measure so se + 1) so se out err =
          some (out ++ so.remaining, err ++ se.remaining)) := by
  refine ⟨?_, ?_, ?_, ?_, ?_, ?_, ?_⟩
  · intro so se out err h1 h2
    by_cases hb : (!so.is_open && !se.is_open) = true
    · simp [do_read_output, hb]
    · have hb' : (!so.is_open && !se.is_open) = false := by
        cases hx : (!so.is_open && !se.is_open)
        · rfl
        · exact absurd hx hb
      simp [do_read_output, hb', h1, h2]
  · intro out err
    simp [do_read_output, pipe_end.is_open, pipe_end.ready]
  · intro avail hup target ha
    constructor
    · cases avail with
      | nil => simp [List.isEmpty] at ha
      | cons x xs =>
        simp [service_pipe, take_cons_not_empty]
    · exact List.length_take_le 1024 avail
  · intro target
    simp [service_pipe]
  · intro se out err t hready
    cases se with
    | closed => simp [pipe_end.ready] at hready
    | opened a hp =>
      simp only [pipe_end.ready] at hready
      simp [do_read_output, pipe_end.is_open, pipe_end.ready, hready,
        service_pipe]
  · intro out err t
    simp [do_read_output, pipe_end.is_open]
  · intro so se out err h1 h2
    exact read_output_fuel_complete (pipe_measure so se + 1) so se out err
      (Nat.lt_succ_self _) h1 h2

/-- C5 witness: the theorem applied at closed endpoints for the
zero-timeout part and at a hung-up two-byte stdout endpoint for the
`read_output()` part. -/
theorem C5_read_output_multiplexing_witness :
    do_read_output pipe_end.closed pipe_end.closed [] [] 0 =
      read_step_result.ok pipe_end.closed pipe_end.closed [] [] ∧
    read_output_fuel (pipe_measure (pipe_end.opened [7, 8] true) pipe_end.closed + 1)
      (pipe_end.opened [7, 8] true) pipe_end.closed [] [] = some ([7, 8], []) := by
  constructor
  · exact C5_read_output_multiplexing.1 pipe_end.closed pipe_end.closed [] [] rfl rfl
  · have h := (C5_read_output_multiplexing.2.2.2.2.2.2)
      (pipe_end.opened [7, 8] true) pipe_end.closed [] [] rfl rfl
    simpa [pipe_end.remaining] using h

/-- C6: the claim states that every parent-retained pipe end created
during spawn setup has child inheritance disabled immediately after
creation.  On Windows the retained stdout/stderr readers are indeed made
non-inheritable, and on POSIX the retained stdin writer gets
`FD_CLOEXEC`; but the POSIX backend never sets `FD_CLOEXEC` on the
parent-retained stdout and stderr pipe readers (plain `::pipe()` leaves
both ends inheritable), so those two ends are leaked to later children. -/
theorem C6_parent_pipe_ends_inheritance :
    posix_stdout_setup out_route.piped = stream_setup.piped false ∧
    posix_stderr_setup err_route.piped = (stream_setup.piped false, false) ∧
    posix_stdin_setup in_route.piped = stream_setup.piped true ∧
    win_stdout_setup out_route.piped = stream_setup.piped true ∧
    win_stderr_setup err_route.piped = (stream_setup.piped true, false) :=
  ⟨rfl, rfl, rfl, rfl, rfl⟩

/-- C7: destroying a handle that still owns a child (impl present, not
joined) is caught by the always-on assertion and terminates the program;
destruction after `join()`, after `detach()`, or of a moved-from handle
proceeds normally. -/
theorem C7_destroy_unjoined_terminates (s : handle_state) (e : subprocess_exit) :
    (handle_destroy s = destroy_outcome.terminated ↔
      (s.impl_present = true ∧ s.is_joined = false)) ∧
    handle_destroy (handle_after_join s e) = destroy_outcome.normal ∧
    handle_destroy (handle_detach s) = destroy_outcome.normal ∧
    handle_destroy moved_from_handle = destroy_outcome.normal := by
  obtain ⟨ip, er⟩ := s
  cases ip <;> cases er <;>
    simp [handle_destroy, terminate_if_unjoined, handle_state.is_joined,
      handle_after_join, handle_detach, moved_from_handle]

/-- C8: an interrupted `waitid` raises the signal exception for the
signal received by the calling process (carrying exactly that signal
number), a child killed or core-dumped populates only `signal_number`,
and a normally exited child populates only `exit_code`. -/
theorem C8_join_interrupt_and_classify (recv : Int) (info : siginfo_t) :
    posix_do_join recv wait_outcome.interrupted =
      Except.error (throw_for_signal recv) ∧
    (throw_for_signal recv).carried_signal = recv ∧
    (info.si_code = si_code_t.CLD_KILLED ∨ info.si_code = si_code_t.CLD_DUMPED →
      posix_do_join recv (wait_outcome.completed info) =
        Except.ok ⟨0, info.si_status⟩) ∧
    (info.si_code = si_code_t.CLD_EXITED →
      posix_do_join recv (wait_outcome.completed info) =
        Except.ok ⟨info.si_status, 0⟩) := by
  refine ⟨rfl, ?_, ?_, ?_⟩
  · simp only [throw_for_signal]
    split_ifs with h1 h2 h3 h4 <;>
      simp_all [join_error.carried_signal, SIGINT, SIGTERM, SIGQUIT, SIGHUP]
  · rintro (h | h) <;> simp [posix_do_join, classify_siginfo, h]
  · intro h
    simp [posix_do_join, classify_siginfo, h]

/-- C8 witness: the theorem applied for a received SIGTERM, a child
killed by signal 9, and a child exited with status 42. -/
theorem C8_join_interrupt_and_classify_witness :
    (throw_for_signal 15).carried_signal = 15 ∧
    posix_do_join 0 (wait_outcome.completed ⟨si_code_t.CLD_KILLED, 9⟩) =
      Except.ok ⟨0, 9⟩ ∧
    posix_do_join 0 (wait_outcome.completed ⟨si_code_t.CLD_EXITED, 42⟩) =
      Except.ok ⟨42, 0⟩ :=
  ⟨(C8_join_interrupt_and_classify 15 ⟨si_code_t.CLD_KILLED, 9⟩).2.1,
   (C8_join_interrupt_and_classify 0 ⟨si_code_t.CLD_KILLED, 9⟩).2.2.1 (Or.inl rfl),
   (C8_join_interrupt_and_classify 0 ⟨si_code_t.CLD_EXITED, 42⟩).2.2.2 rfl⟩

/-- C9: `is_running` (via `waitid` with `WNOHANG | WNOWAIT`) answers
without blocking, reports exactly whether the child is still running,
and leaves the kernel-side child state — in particular the unconsumed
exit disposition — unchanged, so a later `join` classifies the same
outcome it would have seen without the peek. -/
theorem C9_is_running_does_not_reap :
    (∀ f, posix_do_is_running (child_state.running f) =
      Except.ok (true, child_state.running f)) ∧
    (∀ i, posix_do_is_running (child_state.zombie i) =
      Except.ok (false, child_state.zombie i)) ∧
    (∀ (c : child_state) (b : Bool) (c' : child_state),
      posix_do_is_running c = Except.ok (b, c') →
      c' = c ∧ c'.disposition = c.disposition ∧
      posix_do_join_os c' = posix_do_join_os c ∧
      (b = true ↔ ∃ f, c = child_state.running f)) := by
  refine ⟨fun _ => rfl, fun _ => rfl, ?_⟩
  intro c b c' h
  cases c with
  | running f =>
    simp only [posix_do_is_running, Except.ok.injEq, Prod.mk.injEq] at h
    obtain ⟨hb, hc⟩ := h
    subst hb hc
    exact ⟨rfl, rfl, rfl, by simp⟩
  | zombie i =>
    simp only [posix_do_is_running, Except.ok.injEq, Prod.mk.injEq] at h
    obtain ⟨hb, hc⟩ := h
    subst hb hc
    refine ⟨rfl, rfl, rfl, ?_⟩
    simp
  | reaped => simp [posix_do_is_running] at h

/-- C9 witness: the theorem applied to a zombie child that exited with
status 0: the peek reports not-running and preserves the state. -/
theorem C9_is_running_does_not_reap_witness :
    child_state.zombie ⟨si_code_t.CLD_EXITED, 0⟩ =
        child_state.zombie ⟨si_code_t.CLD_EXITED, 0⟩ ∧
      (child_state.zombie ⟨si_code_t.CLD_EXITED, 0⟩).disposition =
        (child_state.zombie ⟨si_code_t.CLD_EXITED, 0⟩).disposition ∧
      posix_do_join_os (child_state.zombie ⟨si_code_t.CLD_EXITED, 0⟩) =
        posix_do_join_os (child_state.zombie ⟨si_code_t.CLD_EXITED, 0⟩) ∧
      (false = true ↔ ∃ f, child_state.zombie ⟨si_code_t.CLD_EXITED, 0⟩ =
        child_state.running f) :=
  C9_is_running_does_not_reap.2.2
    (child_state.zombie ⟨si_code_t.CLD_EXITED, 0⟩) false
    (child_state.zombie ⟨si_code_t.CLD_EXITED, 0⟩) rfl

/-- C10: two spawn-option values differing only in `set_group_leader`
produce identical OS-visible spawn behaviour on both backends — the POSIX
plan never reads the flag, and the Windows backend always passes
`CREATE_NEW_PROCESS_GROUP` to `CreateProcessW`, even when the flag is
false. -/
theorem C10_set_group_leader_never_read :
    (∀ (opts : subprocess_spawn_options) (b1 b2 : Bool),
      posix_spawn_plan { opts with set_group_leader := b1 } =
        posix_spawn_plan { opts with set_group_leader := b2 }) ∧
    (∀ (opts : subprocess_spawn_options) (b1 b2 : Bool),
      win_spawn_plan { opts with set_group_leader := b1 } =
        win_spawn_plan { opts with set_group_leader := b2 }) ∧
    (∀ opts : subprocess_spawn_options,
      win_creation_flags opts = CREATE_NEW_PROCESS_GROUP) := by
  refine ⟨?_, ?_, fun _ => rfl⟩ <;> (intro opts b1 b2; cases opts; rfl)

end btr
